import Mathlib

/-!
Verification of the behavior of `urbanairship.py`, a Python 2 client library
for the Urban Airship push-notification HTTP API.

Shallow embedding conventions:
* Python values flowing through JSON payloads are modelled by the inductive
  type `Jv` (null / bool / string / integer / array / object).  Python `dict`s
  used as payloads are association lists `Dict := List (String × Jv)` whose
  update semantics (`Dict.set`) mirrors in-place dict assignment: an existing
  key is overwritten in place, a new key is appended.
* Python byte strings (the credentials) are `List Nat` with each byte < 256.
* Exceptions are modelled with `Except Err`; `Err` has one constructor per
  exception class raised by the module (`UnrecognizedMobilePlatformException`,
  `Unauthorized`, `AirshipFailure`) plus the Python builtin exceptions that
  the code can raise (`NameError`, `AttributeError`, `KeyError`, `TypeError`).
* The network is a pure oracle `server : Req → Nat × Jv` mapping a request to
  the response (status code, parsed response body).  `json.loads` of a
  response is modelled by letting the oracle return the parsed value
  directly; `json.dumps` of a request body is modelled by carrying the
  structured value in `ReqBody.json`.  Every operation returns the list of
  requests it actually issued, so "no network call was made" is the
  proposition that the list is empty.
-/

/-- JSON-ish value: the data that can sit in a payload dict or response. -/
inductive Jv where
  | nul
  | bool (b : Bool)
  | str (s : String)
  | num (n : Int)
  | arr (xs : List Jv)
  | obj (fields : List (String × Jv))

/-- Python truthiness (`if x:`) for the values we model:
`None`, `False`, `''`, `0`, `[]`, `{}` are falsy, everything else truthy. -/
def Jv.truthy : Jv → Bool
  | .nul => false
  | .bool b => b
  | .str s => s ≠ ""
  | .num n => n ≠ 0
  | .arr xs => !xs.isEmpty
  | .obj fs => !fs.isEmpty

/-- Model of the `x is None` / `x is not None` test used by `register`. -/
def Jv.isNone : Jv → Bool
  | .nul => true
  | _ => false

/-- A Python dict with JSON values, as an association list. -/
abbrev Dict := List (String × Jv)

/-- Dict lookup, `d[k]` / `d.get(k)` (returns `none` when the key is absent). -/
def Dict.get : Dict → String → Option Jv
  | [], _ => none
  | (k', v) :: rest, k => if k' = k then some v else Dict.get rest k

/-- Dict assignment `d[k] = v`: overwrite in place if present, else append
(matching CPython dict update semantics observably). -/
def Dict.set : Dict → String → Jv → Dict
  | [], k, v => [(k, v)]
  | (k', v') :: rest, k, v =>
      if k' = k then (k, v) :: rest else (k', v') :: Dict.set rest k v

/-- Field access on a JSON value: `page['k']` when the value is an object. -/
def Jv.getKey : Jv → String → Option Jv
  | .obj fs, k => Dict.get fs k
  | _, _ => none

/-- The exceptions the module can raise.  The first three are the classes
defined in `urbanairship.py`; the rest are Python builtins that unhandled
slips in the code raise. -/
inductive Err where
  | UnrecognizedMobilePlatformException (platform : String)
  | Unauthorized (body : Jv)
  | AirshipFailure (status : Nat) (body : Jv)
  | NameError (name : String)
  | AttributeError (attr : String)
  | KeyError (key : String)
  | TypeError

/-- The body string handed to `_request`: either the empty string `''` or
`json.dumps(j)` for a structured value `j`. -/
inductive ReqBody where
  | emptyStr
  | json (j : Jv)

/-- An HTTP request as issued by `Airship._request`. -/
structure Req where
  method : String
  url : String
  body : ReqBody
  contentType : Option String

/-- Module-level URL constants of `urbanairship.py`. -/
def BASE_URL : String := "https://go.urbanairship.com/api"

def DEVICE_TOKEN_URL : String := BASE_URL ++ "/device_tokens/"

def APID_URL : String := BASE_URL ++ "/apids/"

def PUSH_URL : String := BASE_URL ++ "/push/"

def BATCH_PUSH_URL : String := BASE_URL ++ "/push/batch/"

def BROADCAST_URL : String := BASE_URL ++ "/push/broadcast/"

def FEEDBACK_URL : String := BASE_URL ++ "/device_tokens/feedback/"

/-- Platform constant `IOS = 'ios'`. -/
def IOS : String := "ios"

/-- Platform constant `ANDROID = 'android'`. -/
def ANDROID : String := "android"

/-- Embedding of `Airship._request(method, body, url, content_type)`.

The source runs `h.request(method, url, body=body.encode('utf8'), ...)`:
when a caller passes `body=None` (as `get_device_token_info` and
`AirshipDeviceList._load_page` do) the attribute access `None.encode`
raises `AttributeError` before any request is issued.  Otherwise the request
is issued and a 401 response raises `Unauthorized(resp.read())` before the
(status, body) pair is returned to the caller.

Returns the list of requests issued together with the outcome. -/
def Airship.request (server : Req → Nat × Jv) (method : String)
    (body : Option ReqBody) (url : String) (contentType : Option String) :
    List Req × Except Err (Nat × Jv) :=
  match body with
  | none => ([], .error (.AttributeError "encode"))
  | some b =>
    let req : Req := ⟨method, url, b, contentType⟩
    let resp := server req
    if resp.1 = 401 then ([req], .error (.Unauthorized resp.2))
    else ([req], .ok resp)

/-! ## Base64 and the auth string

`Airship.__init__` computes `('%s:%s' % (key, secret)).encode('base64')[:-1]`.
In Python 2 the `base64` codec is `base64.encodestring`: it encodes the input
in 57-byte chunks, emitting one 76-character MIME line per chunk, each line
(including the last) followed by `'\n'`; the `[:-1]` then strips only the
final newline.  We model bytes as `Nat` (< 256) and the result as
`List Char`. -/

/-- The standard base64 alphabet (RFC 4648). -/
def b64Table : List Char :=
  "ABCDEFGHIJKLMNOPQRSTUVWXYZabcdefghijklmnopqrstuvwxyz0123456789+/".toList

/-- The base64 character for a 6-bit value. -/
def b64Char (n : Nat) : Char := b64Table.getD n 'A'

/-- Index of a character in the base64 alphabet. -/
def b64Val (c : Char) : Option Nat := b64Table.findIdx? (fun x => x == c)

/-- Standard (un-wrapped) base64 encoding of a byte sequence, with `=`
padding — what the spec calls "the standard base64 encoding". -/
def base64Std : List Nat → List Char
  | [] => []
  | [b1] => [b64Char (b1 / 4), b64Char (b1 % 4 * 16), '=', '=']
  | [b1, b2] =>
      [b64Char (b1 / 4), b64Char (b1 % 4 * 16 + b2 / 16),
       b64Char (b2 % 16 * 4), '=']
  | b1 :: b2 :: b3 :: rest =>
      b64Char (b1 / 4) :: b64Char (b1 % 4 * 16 + b2 / 16) ::
      b64Char (b2 % 16 * 4 + b3 / 64) :: b64Char (b3 % 64) :: base64Std rest

/-- Decode one final base64 quad that contains padding. -/
def decodeQuad (c1 c2 c3 c4 : Char) : Option (List Nat) :=
  match b64Val c1, b64Val c2 with
  | some v1, some v2 =>
    if c3 = '=' then
      if c4 = '=' then some [v1 * 4 + v2 / 16] else none
    else
      match b64Val c3 with
      | some v3 =>
          if c4 = '=' then some [v1 * 4 + v2 / 16, v2 % 16 * 16 + v3 / 4]
          else none
      | none => none
  | _, _ => none

/-- Standard base64 decoding (inverse of `base64Std`). -/
def base64Decode : List Char → Option (List Nat)
  | [] => some []
  | c1 :: c2 :: c3 :: c4 :: rest =>
    if c3 = '=' ∨ c4 = '=' then
      if rest.isEmpty then decodeQuad c1 c2 c3 c4 else none
    else
      match b64Val c1, b64Val c2, b64Val c3, b64Val c4, base64Decode rest with
      | some v1, some v2, some v3, some v4, some bs =>
          some ((v1 * 4 + v2 / 16) :: (v2 % 16 * 16 + v3 / 4) ::
                (v3 % 4 * 64 + v4) :: bs)
      | _, _, _, _, _ => none
  | _ => none

/-- Fuel-driven worker for `encodestring` (fuel makes it structurally
recursive so that it evaluates inside the kernel). -/
def encAux : Nat → List Nat → List Char
  | _, [] => []
  | 0, _ :: _ => []
  | fuel + 1, b :: bs =>
      base64Std ((b :: bs).take 57) ++ '\n' :: encAux fuel ((b :: bs).drop 57)

/-- Python 2 `s.encode('base64')`, i.e. `base64.encodestring`: MIME base64,
encoding 57-byte chunks into 76-character lines, each followed by `'\n'`.
One unit of fuel per chunk is ample since each chunk consumes ≥ 1 byte. -/
def encodestring (s : List Nat) : List Char := encAux s.length s

/-- Embedding of `Airship.__init__`: `self.auth_string = ('%s:%s' % (key, secret)).encode('base64')[:-1]`.
The byte 58 is `':'`. -/
def Airship.auth_string (key secret : List Nat) : List Char :=
  (encodestring (key ++ 58 :: secret)).dropLast

/-! ## Client operations -/

/-- Embedding of `Airship.register(token, alias=None, tags=None, badge=None, platform=IOS)`.

The platform dispatch at the top has no `else` branch: for a platform outside
`{IOS, ANDROID}` the local variable `url` is never assigned, and evaluating
`url` in the `self._request(...)` call raises `NameError`
(`UnboundLocalError: local variable 'url' referenced before assignment`)
instead of `UnrecognizedMobilePlatformException`; no request is issued.
Otherwise: payload fields are included when `is not None`, the body is either
the JSON payload or the empty string, a PUT is issued, a status outside
`{200, 201}` raises `AirshipFailure(status, response)`, and the return value
is `status == 201`. -/
def Airship.register (server : Req → Nat × Jv) (token : String)
    (alias_ tags badge : Jv) (platform : String) :
    List Req × Except Err Bool :=
  let url? : Option String :=
    if platform = IOS then some (DEVICE_TOKEN_URL ++ token)
    else if platform = ANDROID then some (APID_URL ++ token)
    else none
  let payload : Dict := []
  let payload := if alias_.isNone then payload else Dict.set payload "alias" alias_
  let payload := if tags.isNone then payload else Dict.set payload "tags" tags
  let payload := if badge.isNone then payload else Dict.set payload "badge" badge
  let bodyCt : ReqBody × Option String :=
    match payload with
    | [] => (.emptyStr, none)
    | _ => (.json (.obj payload), some "application/json")
  match url? with
  | none => ([], .error (.NameError "url"))
  | some url =>
    let (reqs, r) := Airship.request server "PUT" (some bodyCt.1) url bodyCt.2
    (reqs,
      match r with
      | .error e => .error e
      | .ok (status, response) =>
          if status = 200 ∨ status = 201 then .ok (status == 201)
          else .error (.AirshipFailure status response))

/-- Embedding of `Airship.deregister(token, platform=IOS)`: DELETE with empty body;
unrecognized platform raises `UnrecognizedMobilePlatformException` before any
request; a status other than 204 raises `AirshipFailure(status, response)`. -/
def Airship.deregister (server : Req → Nat × Jv) (token : String)
    (platform : String) : List Req × Except Err Unit :=
  if platform = IOS ∨ platform = ANDROID then
    let url := (if platform = IOS then DEVICE_TOKEN_URL else APID_URL) ++ token
    let (reqs, r) := Airship.request server "DELETE" (some .emptyStr) url none
    (reqs,
      match r with
      | .error e => .error e
      | .ok (status, response) =>
          if status ≠ 204 then .error (.AirshipFailure status response)
          else .ok ())
  else ([], .error (.UnrecognizedMobilePlatformException platform))

/-- Embedding of `Airship.get_device_token_info(device_token)`.

The source calls `self._request('GET', None, url)`; `_request` then evaluates
`None.encode('utf8')`, raising `AttributeError` before the GET is issued, so
the 404/200 status handling below it is unreachable. -/
def Airship.get_device_token_info (server : Req → Nat × Jv)
    (device_token : String) : List Req × Except Err (Option Jv) :=
  let url := DEVICE_TOKEN_URL ++ device_token
  let (reqs, r) := Airship.request server "GET" none url none
  (reqs,
    match r with
    | .error e => .error e
    | .ok (status, response) =>
        if status = 404 then .ok none
        else if status ≠ 200 then .error (.AirshipFailure status response)
        else .ok (some response))

/-- Embedding of `Airship.build_push_payload(alert, extra=None, tokens=None, aliases=None,
tags=None, platform=IOS, badge=None, sound=None)`.

Field inclusion is by Python truthiness.  Note three quirks mirrored from the
source: (1) for IOS, `extra` is stored at the *top-level* key `'d'`, not
inside `'aps'`; (2) for ANDROID, `sound` and `badge` are silently dropped;
(3) for an unrecognized platform, `UnrecognizedMobilePlatformException` is
raised only from the `tokens` and `extra` branches — a truthy `alert` with an
unrecognized platform is silently dropped and a partial payload returned. -/
def Airship.build_push_payload (alert extra tokens aliases tags : Jv)
    (platform : String) (badge sound : Jv) : Except Err Dict := do
  let payload : Dict := []
  let payload :=
    if platform = ANDROID then Dict.set payload "android" (.obj [])
    else if platform = IOS then Dict.set payload "aps" (.obj [])
    else payload
  let payload ←
    if tokens.truthy then
      if platform = IOS then pure (Dict.set payload "device_tokens" tokens)
      else if platform = ANDROID then pure (Dict.set payload "apids" tokens)
      else throw (.UnrecognizedMobilePlatformException platform)
    else pure payload
  let payload := if aliases.truthy then Dict.set payload "aliases" aliases else payload
  let payload := if tags.truthy then Dict.set payload "tags" tags else payload
  let payload ←
    if alert.truthy then
      if platform = ANDROID then setNested payload "android" "alert" alert
      else if platform = IOS then setNested payload "aps" "alert" alert
      else pure payload
    else pure payload
  let payload ←
    if sound.truthy then
      if platform = IOS then setNested payload "aps" "sound" sound else pure payload
    else pure payload
  let payload ←
    if badge.truthy then
      if platform = IOS then setNested payload "aps" "badge" badge else pure payload
    else pure payload
  let payload ←
    if extra.truthy then
      if platform = IOS then pure (Dict.set payload "d" extra)
      else if platform = ANDROID then setNested payload "android" "extra" extra
      else throw (.UnrecognizedMobilePlatformException platform)
    else pure payload
  return payload
where
  /-- Model of `payload[outer][inner] = v`: nested in-place dict update; `KeyError`
  when the outer key is absent, `TypeError` when it is not a dict. -/
  setNested (p : Dict) (outer inner : String) (v : Jv) : Except Err Dict :=
    match Dict.get p outer with
    | some (.obj d) => .ok (Dict.set p outer (.obj (Dict.set d inner v)))
    | some _ => .error .TypeError
    | none => .error (.KeyError outer)

/-- Embedding of `Airship.push(...)`: builds the payload (propagating any exception from
`build_push_payload` before any request), POSTs it, succeeds only on 200. -/
def Airship.push (server : Req → Nat × Jv) (alert extra tokens aliases tags : Jv)
    (platform : String) (badge sound : Jv) : List Req × Except Err Unit :=
  match Airship.build_push_payload alert extra tokens aliases tags platform badge sound with
  | .error e => ([], .error e)
  | .ok payload =>
    let (reqs, r) :=
      Airship.request server "POST" (some (.json (.obj payload))) PUSH_URL
        (some "application/json")
    (reqs,
      match r with
      | .error e => .error e
      | .ok (status, response) =>
          if status = 200 then .ok ()
          else .error (.AirshipFailure status response))

/-- Embedding of `Airship.push_batch(payloads)`: POST the JSON array, succeed only on 200. -/
def Airship.push_batch (server : Req → Nat × Jv) (payloads : Jv) :
    List Req × Except Err Unit :=
  let (reqs, r) :=
    Airship.request server "POST" (some (.json payloads)) BATCH_PUSH_URL
      (some "application/json")
  (reqs,
    match r with
    | .error e => .error e
    | .ok (status, response) =>
        if status = 200 then .ok ()
        else .error (.AirshipFailure status response))

/-- Embedding of `Airship.broadcast(payload, exclude_tokens=None)`.

`payload['exclude_tokens'] = exclude_tokens` mutates the caller's dict in
place (when `exclude_tokens` is truthy) before the request is issued.  The
first component of the result is the caller's dict as it stands after the
call — returned regardless of the outcome, since the mutation persists even
when the call raises. -/
def Airship.broadcast (server : Req → Nat × Jv) (payload : Dict)
    (exclude_tokens : Jv) : Dict × List Req × Except Err Unit :=
  let payload :=
    if exclude_tokens.truthy then Dict.set payload "exclude_tokens" exclude_tokens
    else payload
  let (reqs, r) :=
    Airship.request server "POST" (some (.json (.obj payload))) BROADCAST_URL
      (some "application/json")
  (payload, reqs,
    match r with
    | .error e => .error e
    | .ok (status, response) =>
        if status = 200 then .ok ()
        else .error (.AirshipFailure status response))

/-- Embedding of `Airship.feedback(since)`: GET with the ISO-8601 timestamp as query
parameter (`since` is passed here already formatted; `urllib.urlencode` of
the single pair is the literal `since=<value>`).  Status other than 200
raises `AirshipFailure`; on 200 the JSON array is mapped to
`(device_token, dparse(marked_inactive_on), alias)` triples, where `dparse`
stands for `dateutil.parser.parse` (or the identity fallback when dateutil
is missing).  A non-array body or a record missing a field raises. -/
def Airship.feedback (server : Req → Nat × Jv) (dparse : Jv → Jv)
    (since : String) : List Req × Except Err (List (Jv × Jv × Jv)) :=
  let url := FEEDBACK_URL ++ "?" ++ "since=" ++ since
  let (reqs, r) := Airship.request server "GET" (some .emptyStr) url none
  (reqs,
    match r with
    | .error e => .error e
    | .ok (status, response) =>
        if status ≠ 200 then .error (.AirshipFailure status response)
        else
          match response with
          | .arr rs => feedbackRecords dparse rs
          | _ => .error .TypeError)
where
  /-- The list comprehension over the parsed records. -/
  feedbackRecords (dparse : Jv → Jv) : List Jv → Except Err (List (Jv × Jv × Jv))
    | [] => .ok []
    | r :: rs =>
      match r.getKey "device_token", r.getKey "marked_inactive_on",
            r.getKey "alias" with
      | some dt, some mi, some al =>
        match feedbackRecords dparse rs with
        | .ok out => .ok ((dt, dparse mi, al) :: out)
        | .error e => .error e
      | none, _, _ => .error (.KeyError "device_token")
      | _, none, _ => .error (.KeyError "marked_inactive_on")
      | _, _, none => .error (.KeyError "alias")

/-! ## The paginated device list -/

/-- The state of an `AirshipDeviceList`: the platform, `self._page` (the most
recently loaded, parsed page) and the unconsumed remainder of
`self._token_iter`. -/
structure AirshipDeviceList where
  platform : String
  page : Jv
  tokenBuf : List Jv

/-- Embedding of `AirshipDeviceList._load_page(url)`: issues
`self._airship._request('GET', None, url)` — whose `None` body makes
`_request` raise `AttributeError` before the GET (see `Airship.request`).
The unreachable remainder is still modelled: a non-200 status raises
`AirshipFailure`, then the parsed page's platform-specific identifier list
is taken as the new token iterator.  In the final platform dispatch the
source's `else` branch says `str(platform)` where no bare `platform` name is
in scope, so it would raise `NameError` rather than the intended
`UnrecognizedMobilePlatformException`. -/
def AirshipDeviceList.load_page (server : Req → Nat × Jv)
    (platform url : String) : Except Err (Jv × List Jv) :=
  match (Airship.request server "GET" none url none).2 with
  | .error e => .error e
  | .ok (status, response) =>
    if status ≠ 200 then .error (.AirshipFailure status response)
    else if platform = IOS then
      match response.getKey "device_tokens" with
      | some (.arr ts) => .ok (response, ts)
      | some _ => .error .TypeError
      | none => .error (.KeyError "device_tokens")
    else if platform = ANDROID then
      match response.getKey "apids" with
      | some (.arr ts) => .ok (response, ts)
      | some _ => .error .TypeError
      | none => .error (.KeyError "apids")
    else .error (.NameError "platform")

/-- Embedding of `AirshipDeviceList.__init__(airship, platform=IOS)`: eagerly loads the
first page from the platform URL; an unrecognized platform raises
`UnrecognizedMobilePlatformException` before any load is attempted. -/
def AirshipDeviceList.init (server : Req → Nat × Jv) (platform : String) :
    Except Err AirshipDeviceList :=
  if platform = IOS then
    match AirshipDeviceList.load_page server platform DEVICE_TOKEN_URL with
    | .ok (p, ts) => .ok ⟨platform, p, ts⟩
    | .error e => .error e
  else if platform = ANDROID then
    match AirshipDeviceList.load_page server platform APID_URL with
    | .ok (p, ts) => .ok ⟨platform, p, ts⟩
    | .error e => .error e
  else .error (.UnrecognizedMobilePlatformException platform)

/-- Embedding of `AirshipDeviceList._fetch_next_page()`: reads `self._page.get('next_page')`;
a falsy link (absent, `null`, `''`) returns leaving the state unchanged,
otherwise the linked page is loaded. -/
def AirshipDeviceList.fetch_next_page (server : Req → Nat × Jv)
    (dl : AirshipDeviceList) : Except Err AirshipDeviceList :=
  match dl.page.getKey "next_page" with
  | none => .ok dl
  | some (.str url) =>
      if url = "" then .ok dl
      else
        match AirshipDeviceList.load_page server dl.platform url with
        | .ok (p, ts) => .ok { dl with page := p, tokenBuf := ts }
        | .error e => .error e
  | some v =>
      -- a truthy non-string link would fail inside the HTTP layer
      if v.truthy then .error .TypeError else .ok dl

/-- Embedding of `AirshipDeviceList.next()`: returns the next buffered identifier; on
`StopIteration` it fetches the next page (a no-op when there is no link) and
pulls from the new iterator, whose own `StopIteration` propagates to the
caller as end-of-sequence (modelled by `none` in the first component). -/
def AirshipDeviceList.next (server : Req → Nat × Jv)
    (dl : AirshipDeviceList) : Except Err (Option Jv × AirshipDeviceList) :=
  match dl.tokenBuf with
  | t :: rest => .ok (some t, { dl with tokenBuf := rest })
  | [] =>
    match AirshipDeviceList.fetch_next_page server dl with
    | .error e => .error e
    | .ok dl' =>
      match dl'.tokenBuf with
      | t :: rest => .ok (some t, { dl' with tokenBuf := rest })
      | [] => .ok (none, dl')

/-- Embedding of `AirshipDeviceList.__len__()`: returns the platform-specific total-count
field of the most recently loaded page — not the number of identifiers
remaining or yielded.  In the source's `else` branch `str(platform)` names an
undefined bare `platform`, so it would raise `NameError`. -/
def AirshipDeviceList.len (dl : AirshipDeviceList) : Except Err Int :=
  if dl.platform = IOS then
    match dl.page.getKey "device_tokens_count" with
    | some (.num n) => .ok n
    | some _ => .error .TypeError
    | none => .error (.KeyError "device_tokens_count")
  else if dl.platform = ANDROID then
    match dl.page.getKey "apids_count" with
    | some (.num n) => .ok n
    | some _ => .error .TypeError
    | none => .error (.KeyError "apids_count")
  else .error (.NameError "platform")

/-- Embedding of `Airship.get_device_tokens(platform=IOS)`: the source is
`return AirshipDeviceList(self, platorm)` — the misspelt name `platorm` is
neither a local nor a global, so every call raises
`NameError: global name 'platorm' is not defined`, evaluated before
`AirshipDeviceList.__init__` can run, whatever `platform` was passed. -/
def Airship.get_device_tokens (server : Req → Nat × Jv) (platform : String) :
    Except Err AirshipDeviceList :=
  .error (.NameError "platorm")

/-! ## Theorems -/

/-- C3: the claim says `get_device_tokens` returns an `AirshipDeviceList`
for every recognized platform; in fact every call — whatever the platform —
raises `NameError` because of the misspelt `platorm` in
`return AirshipDeviceList(self, platorm)`, so the device-list operation can
never succeed.  (code_bug: the spec and the class docstring state the
intent; the typo is acknowledged as a bug in the spec's design notes.) -/
theorem c3_get_device_tokens_always_raises (server : Req → Nat × Jv)
    (platform : String) :
    Airship.get_device_tokens server platform = .error (.NameError "platorm") :=
  rfl

/-- C7: the claim says `get_device_token_info` maps 404 to an empty result,
200 to the parsed record, other statuses to failures; in fact every call
passes `body=None` to `_request`, which evaluates `None.encode('utf8')` and
raises `AttributeError` before the GET is ever issued (the request list is
empty), so none of the claimed status handling is reachable. -/
theorem c7_get_device_token_info_always_raises (server : Req → Nat × Jv)
    (device_token : String) :
    Airship.get_device_token_info server device_token
      = ([], .error (.AttributeError "encode")) :=
  rfl

/-- C1: the claim says every platform-taking operation raises the distinct
`UnrecognizedMobilePlatformException` on a platform outside {ios, android},
before any network call and without a partial payload.  Evaluating the code
at platform `"web"`: `register` raises `NameError` (`url` unassigned by the
else-less dispatch), `build_push_payload('hi', platform='web')` raises
nothing and silently returns the empty payload (the alert is dropped), and
`get_device_tokens` raises `NameError('platorm')`; only `deregister` and the
device-list constructor raise the distinct exception as claimed (and both
issue no request). -/
theorem c1_unrecognized_platform_dispatch :
    Airship.register (fun _ => (200, Jv.nul)) "t" .nul .nul .nul "web"
      = ([], .error (.NameError "url")) ∧
    Airship.build_push_payload (.str "hi") .nul .nul .nul .nul "web" .nul .nul
      = .ok [] ∧
    Airship.get_device_tokens (fun _ => (200, Jv.nul)) "web"
      = .error (.NameError "platorm") ∧
    Airship.deregister (fun _ => (200, Jv.nul)) "t" "web"
      = ([], .error (.UnrecognizedMobilePlatformException "web")) ∧
    AirshipDeviceList.init (fun _ => (200, Jv.nul)) "web"
      = .error (.UnrecognizedMobilePlatformException "web") :=
  ⟨rfl, rfl, rfl, rfl, rfl⟩

/-- C8: the claim describes the identifiers yielded while iterating pages;
in fact the iterator's eager first fetch runs
`_request('GET', None, url)`, whose `None.encode('utf8')` raises
`AttributeError` before the GET, so constructing the device list fails for
both recognized platforms and no identifier is ever yielded. -/
theorem c8_device_list_construction_always_raises (server : Req → Nat × Jv) :
    AirshipDeviceList.init server IOS = .error (.AttributeError "encode") ∧
    AirshipDeviceList.init server ANDROID = .error (.AttributeError "encode") :=
  ⟨rfl, rfl⟩

/-- C9: `__len__` does return the platform-specific total-count field of the
most recently loaded page (`device_tokens_count` for ios, `apids_count` for
android), independently of how many identifiers remain buffered — but no
iteration point exists at which to observe it, because constructing the
iterator always raises `AttributeError` (the `None` request body), as the
last conjunct shows. -/
theorem c9_len_reads_page_count (pI pA : Jv) (bufI bufI' bufA : List Jv)
    (cI cA : Int) (server : Req → Nat × Jv) (platform : String)
    (hI : pI.getKey "device_tokens_count" = some (.num cI))
    (hA : pA.getKey "apids_count" = some (.num cA))
    (hp : platform = IOS ∨ platform = ANDROID) :
    AirshipDeviceList.len ⟨IOS, pI, bufI⟩ = .ok cI ∧
    AirshipDeviceList.len ⟨IOS, pI, bufI⟩
      = AirshipDeviceList.len ⟨IOS, pI, bufI'⟩ ∧
    AirshipDeviceList.len ⟨ANDROID, pA, bufA⟩ = .ok cA ∧
    AirshipDeviceList.init server platform = .error (.AttributeError "encode") := by
  refine ⟨?_, ?_, ?_, ?_⟩
  · simp [AirshipDeviceList.len, hI]
  · simp [AirshipDeviceList.len, hI]
  · simp [AirshipDeviceList.len, ANDROID, IOS, hA]
  · rcases hp with h | h <;> subst h <;> rfl

/-- Witness for `c9_len_reads_page_count` at a concrete mid-iteration state:
a page reporting 6 total tokens with one identifier still buffered. -/
theorem c9_len_reads_page_count_witness :
    Jv.getKey (.obj [("device_tokens_count", .num 6)]) "device_tokens_count"
      = some (.num 6) ∧
    AirshipDeviceList.len ⟨IOS, .obj [("device_tokens_count", .num 6)],
        [.str "t5"]⟩ = .ok 6 ∧
    AirshipDeviceList.len ⟨IOS, .obj [("device_tokens_count", .num 6)],
        [.str "t5"]⟩
      = AirshipDeviceList.len ⟨IOS, .obj [("device_tokens_count", .num 6)], []⟩ ∧
    AirshipDeviceList.len ⟨ANDROID, .obj [("apids_count", .num 6)], []⟩
      = .ok 6 ∧
    AirshipDeviceList.init (fun _ => (200, Jv.nul)) IOS
      = .error (.AttributeError "encode") :=
  ⟨rfl,
   c9_len_reads_page_count (.obj [("device_tokens_count", .num 6)])
     (.obj [("apids_count", .num 6)]) [.str "t5"] [] [] 6 6
     (fun _ => (200, Jv.nul)) IOS rfl rfl (Or.inl rfl)⟩

/-- Looking up the key just set yields the value set. -/
theorem Dict.get_set_self (d : Dict) (k : String) (v : Jv) :
    Dict.get (Dict.set d k v) k = some v := by
  induction d with
  | nil => simp [Dict.set, Dict.get]
  | cons kv rest ih =>
    by_cases h : kv.1 = k
    · simp [Dict.set, Dict.get, h]
    · simp [Dict.set, Dict.get, h, ih]

/-- Setting one key leaves lookups of every other key unchanged. -/
theorem Dict.get_set_ne (d : Dict) (k k' : String) (v : Jv) (h : k ≠ k') :
    Dict.get (Dict.set d k v) k' = Dict.get d k' := by
  induction d with
  | nil => simp [Dict.set, Dict.get, h]
  | cons kv rest ih =>
    by_cases hk : kv.1 = k
    · simp [Dict.set, Dict.get, hk, h]
    · simp [Dict.set, Dict.get, hk, ih]

/-- C10: `broadcast` with a truthy (non-empty) `exclude_tokens` mutates the
caller's payload dict in place: afterwards the dict is exactly the original
with `'exclude_tokens'` added or overwritten, every other key is unchanged,
and the mutated dict is what the caller observes regardless of the server's
response (in particular when the call fails — the final conjunct shows the
post-call dict does not depend on the server at all). -/
theorem c10_broadcast_mutates_caller_payload (server server' : Req → Nat × Jv)
    (payload : Dict) (ts : List Jv) (k : String)
    (hts : ts ≠ []) (hk : k ≠ "exclude_tokens") :
    (Airship.broadcast server payload (.arr ts)).1
      = Dict.set payload "exclude_tokens" (.arr ts) ∧
    Dict.get (Airship.broadcast server payload (.arr ts)).1 "exclude_tokens"
      = some (.arr ts) ∧
    Dict.get (Airship.broadcast server payload (.arr ts)).1 k
      = Dict.get payload k ∧
    (Airship.broadcast server' payload (.arr ts)).1
      = (Airship.broadcast server payload (.arr ts)).1 := by
  cases ts with
  | nil => exact absurd rfl hts
  | cons t rest =>
    refine ⟨?_, ?_, ?_, ?_⟩ <;>
      simp [Airship.broadcast, Jv.truthy, Dict.get_set_self,
        Dict.get_set_ne _ _ _ _ (fun h => hk h.symm)]

/-- Witness for `c10_broadcast_mutates_caller_payload`: a failing server
(status 500), payload `{'alert': 'x'}`, one excluded token. -/
theorem c10_broadcast_mutates_caller_payload_witness :
    ([Jv.str "tok"] ≠ ([] : List Jv)) ∧
    ("alert" ≠ "exclude_tokens") ∧
    ((Airship.broadcast (fun _ => (500, Jv.nul)) [("alert", .str "x")]
        (.arr [.str "tok"])).1
      = Dict.set [("alert", .str "x")] "exclude_tokens" (.arr [.str "tok"]) ∧
     Dict.get (Airship.broadcast (fun _ => (500, Jv.nul)) [("alert", .str "x")]
        (.arr [.str "tok"])).1 "exclude_tokens" = some (.arr [.str "tok"]) ∧
     Dict.get (Airship.broadcast (fun _ => (500, Jv.nul)) [("alert", .str "x")]
        (.arr [.str "tok"])).1 "alert"
      = Dict.get [("alert", .str "x")] "alert" ∧
     (Airship.broadcast (fun _ => (204, Jv.nul)) [("alert", .str "x")]
        (.arr [.str "tok"])).1
      = (Airship.broadcast (fun _ => (500, Jv.nul)) [("alert", .str "x")]
        (.arr [.str "tok"])).1) :=
  ⟨List.cons_ne_nil _ _, by decide,
   c10_broadcast_mutates_caller_payload (fun _ => (500, Jv.nul))
     (fun _ => (204, Jv.nul)) [("alert", .str "x")] [.str "tok"] "alert"
     (List.cons_ne_nil _ _) (by decide)⟩

/-! ## Push-payload layout (C2)

`iosPushPayload` / `androidPushPayload` are closed forms written from the
spec's description of the wire layout, to be compared with what
`Airship.build_push_payload` (translated from the source) actually builds. -/

/-- The `'aps'` container dict for platform ios: alert, then sound, then
badge, each present iff truthy.  Note `extra` is *not* here. -/
def apsDict (alert badge sound : Jv) : Dict :=
  (if alert.truthy then [("alert", alert)] else [])
    ++ (if sound.truthy then [("sound", sound)] else [])
    ++ (if badge.truthy then [("badge", badge)] else [])

/-- The full ios push payload: the `'aps'` container first, then the flat
top-level selectors, with `extra` at the flat top-level key `'d'`. -/
def iosPushPayload (alert extra tokens aliases tags badge sound : Jv) : Dict :=
  ("aps", .obj (apsDict alert badge sound))
    :: ((if tokens.truthy then [("device_tokens", tokens)] else [])
    ++ (if aliases.truthy then [("aliases", aliases)] else [])
    ++ (if tags.truthy then [("tags", tags)] else [])
    ++ (if extra.truthy then [("d", extra)] else []))

/-- The `'android'` container dict: alert then extra; sound and badge never
appear for android. -/
def androidDict (alert extra : Jv) : Dict :=
  (if alert.truthy then [("alert", alert)] else [])
    ++ (if extra.truthy then [("extra", extra)] else [])

/-- The full android push payload: the `'android'` container first, then the
flat top-level selectors (identifiers under `'apids'`). -/
def androidPushPayload (alert extra tokens aliases tags : Jv) : Dict :=
  ("android", .obj (androidDict alert extra))
    :: ((if tokens.truthy then [("apids", tokens)] else [])
    ++ (if aliases.truthy then [("aliases", aliases)] else [])
    ++ (if tags.truthy then [("tags", tags)] else []))

/-- The function `build_push_payload` for ios produces exactly `iosPushPayload`. -/
theorem build_push_payload_ios_eq (alert extra tokens aliases tags badge sound : Jv) :
    Airship.build_push_payload alert extra tokens aliases tags IOS badge sound
      = .ok (iosPushPayload alert extra tokens aliases tags badge sound) := by
  cases ha : alert.truthy <;> cases he : extra.truthy <;> cases hts : tokens.truthy
    <;> cases hal : aliases.truthy <;> cases htg : tags.truthy
    <;> cases hb : badge.truthy <;> cases hsd : sound.truthy <;>
    simp only [Airship.build_push_payload, Airship.build_push_payload.setNested,
      iosPushPayload, apsDict, ha, he, hts, hal, htg, hb, hsd] <;> rfl

/-- The function `build_push_payload` for android produces exactly `androidPushPayload`. -/
theorem build_push_payload_android_eq (alert extra tokens aliases tags badge sound : Jv) :
    Airship.build_push_payload alert extra tokens aliases tags ANDROID badge sound
      = .ok (androidPushPayload alert extra tokens aliases tags) := by
  cases ha : alert.truthy <;> cases he : extra.truthy <;> cases hts : tokens.truthy
    <;> cases hal : aliases.truthy <;> cases htg : tags.truthy
    <;> cases hb : badge.truthy <;> cases hsd : sound.truthy <;>
    simp only [Airship.build_push_payload, Airship.build_push_payload.setNested,
      androidPushPayload, androidDict, ha, he, hts, hal, htg, hb, hsd] <;> rfl

/-- C2 counterexample: for ios with `alert='hi'` and a provided `extra`, the
built payload stores `extra` at the flat top-level key `'d'` — not inside the
`'aps'` container as the claim states ("alert, sound, badge, and extra …
nested under that platform's container key and under no other key"):
the `'aps'` container holds only the alert, and has no `'extra'` entry. -/
theorem c2_counterexample_ios_extra_at_top_level :
    Airship.build_push_payload (.str "hi") (.obj [("k", .str "v")])
        .nul .nul .nul IOS .nul .nul
      = .ok [("aps", .obj [("alert", .str "hi")]),
             ("d", .obj [("k", .str "v")])] ∧
    Dict.get [("aps", .obj [("alert", .str "hi")]),
              ("d", .obj [("k", .str "v")])] "d"
      = some (.obj [("k", .str "v")]) ∧
    Jv.getKey (.obj [("alert", .str "hi")]) "extra" = none :=
  ⟨rfl, rfl, rfl⟩

/-- C2 (amended): for each recognized platform `build_push_payload` produces
exactly the closed-form layout: truthy alert/sound/badge sit inside `'aps'`
for ios (for android, truthy alert sits inside `'android'` and sound/badge
are dropped); truthy `extra` sits inside `'android'` for android but at the
flat top-level key `'d'` for ios; truthy selectors (identifiers as
`'device_tokens'`/`'apids'`, aliases, tags) are flat top-level keys; and no
key of the other platform's layout appears. -/
theorem c2_push_payload_layout (alert extra tokens aliases tags badge sound : Jv) :
    Airship.build_push_payload alert extra tokens aliases tags IOS badge sound
      = .ok (iosPushPayload alert extra tokens aliases tags badge sound) ∧
    Airship.build_push_payload alert extra tokens aliases tags ANDROID badge sound
      = .ok (androidPushPayload alert extra tokens aliases tags) ∧
    Dict.get (iosPushPayload alert extra tokens aliases tags badge sound)
      "android" = none ∧
    Dict.get (iosPushPayload alert extra tokens aliases tags badge sound)
      "apids" = none ∧
    Dict.get (androidPushPayload alert extra tokens aliases tags) "aps" = none ∧
    Dict.get (androidPushPayload alert extra tokens aliases tags)
      "device_tokens" = none ∧
    Dict.get (androidPushPayload alert extra tokens aliases tags) "d" = none := by
  refine ⟨build_push_payload_ios_eq alert extra tokens aliases tags badge sound,
    build_push_payload_android_eq alert extra tokens aliases tags badge sound,
    ?_, ?_, ?_, ?_, ?_⟩ <;>
  cases hts : tokens.truthy <;> cases hal : aliases.truthy <;>
    cases htg : tags.truthy <;> cases he : extra.truthy <;>
    simp only [iosPushPayload, androidPushPayload, apsDict, androidDict,
      hts, hal, htg, he] <;> rfl

/-- C5 counterexample: with a mocked 401 response, `register` raises
`Unauthorized` — not the provider failure `AirshipFailure(status, body)`
that the claim prescribes for "any other status". -/
theorem c5_counterexample_401_is_not_provider_failure :
    (Airship.register (fun _ => (401, Jv.str "denied")) "tok"
        .nul .nul .nul IOS).2
      = .error (.Unauthorized (.str "denied")) ∧
    (Airship.register (fun _ => (401, Jv.str "denied")) "tok"
        .nul .nul .nul IOS).2
      ≠ .error (.AirshipFailure 401 (.str "denied")) := by
  refine ⟨rfl, fun h => ?_⟩
  rw [show (Airship.register (fun _ => (401, Jv.str "denied")) "tok"
        .nul .nul .nul IOS).2
      = .error (.Unauthorized (.str "denied")) from rfl] at h
  injection h with h2
  exact Err.noConfusion h2

/-- C5 (amended): for a recognized platform and a mocked response
`(status, body)`, `register` returns `true` iff the status is 201, `false`
iff it is 200, raises `Unauthorized(body)` when it is 401, and raises
`AirshipFailure(status, body)` for every other status. -/
theorem c5_register_status_mapping (status : Nat) (rbody : Jv) (token : String)
    (alias_ tags badge : Jv) (platform : String)
    (hp : platform = IOS ∨ platform = ANDROID) :
    ((Airship.register (fun _ => (status, rbody)) token alias_ tags badge
        platform).2 = .ok true ↔ status = 201) ∧
    ((Airship.register (fun _ => (status, rbody)) token alias_ tags badge
        platform).2 = .ok false ↔ status = 200) ∧
    (status = 401 →
      (Airship.register (fun _ => (status, rbody)) token alias_ tags badge
        platform).2 = .error (.Unauthorized rbody)) ∧
    (status ≠ 200 → status ≠ 201 → status ≠ 401 →
      (Airship.register (fun _ => (status, rbody)) token alias_ tags badge
        platform).2 = .error (.AirshipFailure status rbody)) := by
  rcases hp with rfl | rfl <;>
  · by_cases h401 : status = 401
    · subst h401
      simp [Airship.register, Airship.request, IOS, ANDROID]
    · by_cases h200 : status = 200
      · subst h200
        simp [Airship.register, Airship.request, IOS, ANDROID]
      · by_cases h201 : status = 201
        · subst h201
          simp [Airship.register, Airship.request, IOS, ANDROID]
        · simp [Airship.register, Airship.request, IOS, ANDROID, h401, h200, h201]

/-- Witness for `c5_register_status_mapping` at platform ios, status 201. -/
theorem c5_register_status_mapping_witness :
    (IOS = IOS ∨ IOS = ANDROID) ∧
    (((Airship.register (fun _ => (201, Jv.nul)) "t" .nul .nul .nul IOS).2
        = .ok true ↔ (201 : Nat) = 201) ∧
     ((Airship.register (fun _ => (201, Jv.nul)) "t" .nul .nul .nul IOS).2
        = .ok false ↔ (201 : Nat) = 200) ∧
     ((201 : Nat) = 401 →
       (Airship.register (fun _ => (201, Jv.nul)) "t" .nul .nul .nul IOS).2
        = .error (.Unauthorized Jv.nul)) ∧
     ((201 : Nat) ≠ 200 → (201 : Nat) ≠ 201 → (201 : Nat) ≠ 401 →
       (Airship.register (fun _ => (201, Jv.nul)) "t" .nul .nul .nul IOS).2
        = .error (.AirshipFailure 201 Jv.nul))) :=
  ⟨Or.inl rfl,
   c5_register_status_mapping 201 Jv.nul "t" .nul .nul .nul IOS (Or.inl rfl)⟩

/-- C6: whenever the server answers 401 (whatever the request), every
operation that issues a request — register, deregister, push, push_batch,
broadcast, feedback — fails with `Unauthorized` carrying the raw response
body: the check lives in `_request`, upstream of every operation-specific
status test, so no operation can see a 401 as success or turn it into an
`AirshipFailure`.  (`get_device_token_info` and the device-list loader never
reach the network at all — see C7/C8 — so no 401 can ever reach them.) -/
theorem c6_401_always_unauthorized (server : Req → Nat × Jv) (b : Jv)
    (hs : ∀ r, server r = (401, b)) (token : String) (alias_ tags badge : Jv)
    (platform : String) (hp : platform = IOS ∨ platform = ANDROID)
    (alert extra tokens aliases tags2 badge2 sound : Jv)
    (payload : Dict) (payloads ex : Jv) (dparse : Jv → Jv) (since : String) :
    (Airship.register server token alias_ tags badge platform).2
      = .error (.Unauthorized b) ∧
    (Airship.deregister server token platform).2 = .error (.Unauthorized b) ∧
    (Airship.push server alert extra tokens aliases tags2 platform badge2
        sound).2 = .error (.Unauthorized b) ∧
    (Airship.push_batch server payloads).2 = .error (.Unauthorized b) ∧
    (Airship.broadcast server payload ex).2.2 = .error (.Unauthorized b) ∧
    (Airship.feedback server dparse since).2 = .error (.Unauthorized b) := by
  have hreq : ∀ method bd url ct, Airship.request server method (some bd) url ct
      = ([⟨method, url, bd, ct⟩], .error (.Unauthorized b)) := by
    intro method bd url ct
    simp [Airship.request, hs]
  refine ⟨?_, ?_, ?_, ?_, ?_, ?_⟩
  · rcases hp with rfl | rfl <;> simp [Airship.register, hreq, IOS, ANDROID]
  · rcases hp with rfl | rfl <;> simp [Airship.deregister, hreq, IOS, ANDROID]
  · rcases hp with rfl | rfl <;>
      simp [Airship.push, build_push_payload_ios_eq,
        build_push_payload_android_eq, hreq]
  · simp [Airship.push_batch, hreq]
  · simp [Airship.broadcast, hreq]
  · simp [Airship.feedback, hreq]

/-- Witness for `c6_401_always_unauthorized`: the constant-401 server with
body `null`, platform ios, all optional arguments `None`. -/
theorem c6_401_always_unauthorized_witness :
    (Airship.register (fun _ => (401, Jv.nul)) "t" .nul .nul .nul IOS).2
      = .error (.Unauthorized Jv.nul) ∧
    (Airship.deregister (fun _ => (401, Jv.nul)) "t" IOS).2
      = .error (.Unauthorized Jv.nul) ∧
    (Airship.push (fun _ => (401, Jv.nul)) (.str "hi") .nul .nul .nul .nul IOS
        .nul .nul).2 = .error (.Unauthorized Jv.nul) ∧
    (Airship.push_batch (fun _ => (401, Jv.nul)) (.arr [])).2
      = .error (.Unauthorized Jv.nul) ∧
    (Airship.broadcast (fun _ => (401, Jv.nul)) [] .nul).2.2
      = .error (.Unauthorized Jv.nul) ∧
    (Airship.feedback (fun _ => (401, Jv.nul)) (fun v => v) "2009-06-01").2
      = .error (.Unauthorized Jv.nul) :=
  c6_401_always_unauthorized (fun _ => (401, Jv.nul)) Jv.nul (fun _ => rfl)
    "t" .nul .nul .nul IOS (Or.inl rfl) (.str "hi") .nul .nul .nul .nul .nul
    .nul [] (.arr []) .nul (fun v => v) "2009-06-01"

/-- Alphabet lookup inverts `b64Char` on 6-bit values (all 64 cases). -/
theorem b64Val_b64Char_fin : ∀ n : Fin 64, b64Val (b64Char n.val) = some n.val := by
  decide

/-- Alphabet lookup inverts `b64Char` on 6-bit values. -/
theorem b64Val_b64Char {n : Nat} (h : n < 64) : b64Val (b64Char n) = some n :=
  b64Val_b64Char_fin ⟨n, h⟩

/-- No alphabet character is the padding character (all 64 cases). -/
theorem b64Char_ne_pad_fin : ∀ n : Fin 64, b64Char n.val ≠ '=' := by decide

/-- No alphabet character is the padding character. -/
theorem b64Char_ne_pad {n : Nat} (h : n < 64) : b64Char n ≠ '=' :=
  b64Char_ne_pad_fin ⟨n, h⟩

/-- Decoding inverts `base64Std` on byte sequences. -/
theorem base64_decode_encode :
    ∀ s : List Nat, (∀ b ∈ s, b < 256) → base64Decode (base64Std s) = some s := by
  intro s
  induction s using base64Std.induct with
  | case1 => intro _; rfl
  | case2 b1 =>
    intro h
    have hb1 : b1 < 256 := h b1 (by simp)
    simp [base64Std, base64Decode, decodeQuad,
      b64Val_b64Char (show b1 / 4 < 64 by omega),
      b64Val_b64Char (show b1 % 4 * 16 < 64 by omega)]
    omega
  | case3 b1 b2 =>
    intro h
    have hb1 : b1 < 256 := h b1 (by simp)
    have hb2 : b2 < 256 := h b2 (by simp)
    simp [base64Std, base64Decode, decodeQuad,
      b64Val_b64Char (show b1 / 4 < 64 by omega),
      b64Val_b64Char (show b1 % 4 * 16 + b2 / 16 < 64 by omega),
      b64Val_b64Char (show b2 % 16 * 4 < 64 by omega),
      b64Char_ne_pad (show b2 % 16 * 4 < 64 by omega)]
    omega
  | case4 b1 b2 b3 rest ih =>
    intro h
    have hb1 : b1 < 256 := h b1 (by simp)
    have hb2 : b2 < 256 := h b2 (by simp)
    have hb3 : b3 < 256 := h b3 (by simp)
    have ih' : base64Decode (base64Std rest) = some rest :=
      ih (fun b hb => h b (by simp [hb]))
    simp [base64Std, base64Decode, ih',
      b64Val_b64Char (show b1 / 4 < 64 by omega),
      b64Val_b64Char (show b1 % 4 * 16 + b2 / 16 < 64 by omega),
      b64Val_b64Char (show b2 % 16 * 4 + b3 / 64 < 64 by omega),
      b64Val_b64Char (show b3 % 64 < 64 by omega),
      b64Char_ne_pad (show b2 % 16 * 4 + b3 / 64 < 64 by omega),
      b64Char_ne_pad (show b3 % 64 < 64 by omega)]
    omega

/-- The worker `encAux` on the empty byte string is empty whatever the fuel. -/
theorem encAux_nil (fuel : Nat) : encAux fuel [] = [] := by cases fuel <;> rfl

/-- For a non-empty input of at most 57 bytes (one MIME chunk),
`encodestring` is the standard encoding followed by a single `'\n'`. -/
theorem encodestring_short (s : List Nat) (h1 : s ≠ []) (h2 : s.length ≤ 57) :
    encodestring s = base64Std s ++ ['\n'] := by
  cases s with
  | nil => exact absurd rfl h1
  | cons b bs =>
    show encAux (b :: bs).length (b :: bs) = _
    rw [List.length_cons, encAux, List.take_of_length_le h2,
        List.drop_eq_nil_of_le h2, encAux_nil]

/-- C4 counterexample: for credentials whose `key:secret` exceeds 57 bytes
(here a 57-byte key and empty secret), the Python 2 `base64` codec wraps the
output into 76-character MIME lines, so the stored auth string contains an
embedded newline and is **not** the standard base64 encoding of
`key:secret`. -/
theorem c4_counterexample_long_credentials :
    Airship.auth_string (List.replicate 57 97) []
      ≠ base64Std (List.replicate 57 97 ++ 58 :: []) := by decide

/-- C4 (amended): for credentials with `len(key) + 1 + len(secret) ≤ 57`
bytes — a single MIME chunk, which covers all real Urban Airship keys — the
auth string computed at construction is exactly the standard base64 encoding
of `key:secret` with no trailing newline, and base64-decoding it yields back
exactly the bytes of `key:secret`. -/
theorem c4_auth_string_is_base64 (key secret : List Nat)
    (hk : ∀ b ∈ key, b < 256) (hsec : ∀ b ∈ secret, b < 256)
    (hlen : key.length + secret.length + 1 ≤ 57) :
    Airship.auth_string key secret = base64Std (key ++ 58 :: secret) ∧
    base64Decode (Airship.auth_string key secret)
      = some (key ++ 58 :: secret) := by
  have hne : key ++ 58 :: secret ≠ [] := by cases key <;> simp
  have hlen' : (key ++ 58 :: secret).length ≤ 57 := by
    simp only [List.length_append, List.length_cons]
    omega
  have henc : Airship.auth_string key secret
      = base64Std (key ++ 58 :: secret) := by
    unfold Airship.auth_string
    rw [encodestring_short _ hne hlen', List.dropLast_concat]
  refine ⟨henc, ?_⟩
  rw [henc]
  refine base64_decode_encode _ (fun b hb => ?_)
  rcases List.mem_append.mp hb with h | h
  · exact hk b h
  · rcases List.mem_cons.mp h with rfl | h
    · omega
    · exact hsec b h

/-- Witness for `c4_auth_string_is_base64` at `key = 'key'`,
`secret = 'sec'` (byte values). -/
theorem c4_auth_string_is_base64_witness :
    Airship.auth_string [107, 101, 121] [115, 101, 99]
      = base64Std ([107, 101, 121] ++ 58 :: [115, 101, 99]) ∧
    base64Decode (Airship.auth_string [107, 101, 121] [115, 101, 99])
      = some ([107, 101, 121] ++ 58 :: [115, 101, 99]) :=
  c4_auth_string_is_base64 [107, 101, 121] [115, 101, 99]
    (by decide) (by decide) (by decide)
